import Mathlib

/-!
Verification of the MACD trading-strategy application (`streamlit-macd-app.py`)
against its natural-language specification.

The Python source is shallowly embedded here:
* floating-point close prices and indicator values are modelled as rationals
  (`ℚ`); a pandas `NaN` ("not yet seeded" indicator value) is modelled as
  `none` in `Option ℚ`, and Python's comparison semantics — every ordered
  comparison against `NaN` is `False` — is captured by the `opt*` comparison
  functions below;
* the signal computation inlined in `main` (source lines 166-171) becomes
  `signal_decision`;
* the trend display (source line 161) becomes `trend_of`;
* `MACDStrategy.get_historical_data` (source lines 24-52) becomes
  `get_historical_data`; the TA-Lib indicator routines it calls are not part
  of the repository and are modelled from the specification's §4.1 recurrences
  (`smaQ`, `emaQ`, `macdQ`, `signalQ`, `histQ`);
* the Place-Trade handler (source lines 178-189) becomes `place_trade`, with
  Python attribute lookup on the `MACDStrategy` class modelled explicitly.
-/

/-- One OHLC candle as produced upstream and consumed by
`MACDStrategy.get_historical_data` (source lines 35-40).  `time` is the raw
epoch-seconds field that line 40 converts to a timestamp. -/
structure Candle where
  time : ℕ
  open_ : ℚ
  high : ℚ
  low : ℚ
  close : ℚ
deriving DecidableEq

/-- One row of the enriched dataframe built by `get_historical_data`
(source lines 43-50): close price plus the derived indicator columns.
A pandas `NaN` in a derived column is `none`. -/
structure IndicatorPoint where
  timestamp : ℕ
  close : ℚ
  ma200 : Option ℚ
  macd : Option ℚ
  signal : Option ℚ
  hist : Option ℚ
deriving DecidableEq

/-- The trend label computed at source line 161; the Python code produces the
strings "UPTREND" / "DOWNTREND" and nothing else. -/
inductive Trend where
  | UPTREND
  | DOWNTREND
deriving DecidableEq

/-- The decision produced at source lines 166-171; the Python code produces
the strings "CALL" / "PUT" / "NONE". -/
inductive Decision where
  | CALL
  | PUT
  | NONE
deriving DecidableEq

/-- Python `a > b` on possibly-NaN floats: `False` whenever either side is
`NaN`, the numeric comparison otherwise. -/
def optGT : Option ℚ → Option ℚ → Bool
  | some a, some b => decide (b < a)
  | _, _ => false

/-- Python `a < b` on possibly-NaN floats. -/
def optLT : Option ℚ → Option ℚ → Bool
  | some a, some b => decide (a < b)
  | _, _ => false

/-- Python `a <= b` on possibly-NaN floats. -/
def optLE : Option ℚ → Option ℚ → Bool
  | some a, some b => decide (a ≤ b)
  | _, _ => false

/-- Python `a >= b` on possibly-NaN floats. -/
def optGE : Option ℚ → Option ℚ → Bool
  | some a, some b => decide (b ≤ a)
  | _, _ => false

/-- The bullish-crossover test of source line 167, in the source's operand
order: `df.macd.iloc[-1] > df.signal.iloc[-1] and
df.macd.iloc[-2] <= df.signal.iloc[-2]`. -/
def bullish_cross (prev curr : IndicatorPoint) : Bool :=
  optGT curr.macd curr.signal && optLE prev.macd prev.signal

/-- The bearish-crossover test of source line 169, in the source's operand
order: `df.macd.iloc[-1] < df.signal.iloc[-1] and
df.macd.iloc[-2] >= df.signal.iloc[-2]`. -/
def bearish_cross (prev curr : IndicatorPoint) : Bool :=
  optLT curr.macd curr.signal && optGE prev.macd prev.signal

/-- The signal computation of source lines 166-171: initialise to NONE, take
the bullish branch when line 167 fires (CALL only if `macd.iloc[-1] < 0`),
otherwise the bearish branch when line 169 fires (PUT only if
`macd.iloc[-1] > 0`). -/
def signal_decision (prev curr : IndicatorPoint) : Decision :=
  if bullish_cross prev curr then
    if optLT curr.macd (some 0) then Decision.CALL else Decision.NONE
  else if bearish_cross prev curr then
    if optGT curr.macd (some 0) then Decision.PUT else Decision.NONE
  else Decision.NONE

/-- The trend display of source line 161:
`"UPTREND" if df.close.iloc[-1] > df.ma200.iloc[-1] else "DOWNTREND"`.
The close column is always numeric; `ma200` may be `NaN`, in which case the
comparison is `False` and the `else` branch produces DOWNTREND. -/
def trend_of (close : ℚ) (ma200 : Option ℚ) : Trend :=
  if optGT (some close) ma200 then Trend.UPTREND else Trend.DOWNTREND

namespace MACDStrategy

/-- Strategy parameters fixed in `MACDStrategy.__init__` (source line 19). -/
def ma_period : ℕ := 200

/-- Source line 20. -/
def macd_fast : ℕ := 12

/-- Source line 21. -/
def macd_slow : ℕ := 26

/-- Source line 22. -/
def macd_signal : ℕ := 9

/-- The attribute names the `MACDStrategy` class body defines
(source lines 13-52): nothing but the constructor and the data fetcher. -/
def methods : List String := ["__init__", "get_historical_data"]

end MACDStrategy

/-- Modelled from the spec: TA-Lib's `SMA` (called at source line 43) is not
part of the repository; per §4.1 the value at index `i` is the arithmetic mean
of `close[i-period+1..i]`, undefined for `i < period-1`. -/
def smaQ (period : ℕ) (xs : List ℚ) (i : ℕ) : Option ℚ :=
  if period = 0 ∨ xs.length ≤ i ∨ i + 1 < period then none
  else some ((((xs.drop (i + 1 - period)).take period).sum) / (period : ℚ))

/-- Modelled from the spec: the exponential moving average underlying TA-Lib's
`MACD` (called at source lines 44-47) is not part of the repository; per §4.1
the seed value `ema[span-1]` is the simple average of the first `span` inputs
and subsequent values follow `ema[i] = input[i]*k + ema[i-1]*(1-k)` with
`k = 2/(span+1)`; undefined before the seed index. -/
def emaQ (span : ℕ) (xs : List ℚ) : ℕ → Option ℚ
  | 0 =>
    if span = 1 ∧ 1 ≤ xs.length then some ((xs.take span).sum / (span : ℚ))
    else none
  | i + 1 =>
    if xs.length ≤ i + 1 then none
    else if i + 2 < span then none
    else if i + 2 = span then some ((xs.take span).sum / (span : ℚ))
    else (emaQ span xs i).map fun p =>
      xs.getD (i + 1) 0 * (2 / ((span : ℚ) + 1)) +
        p * (1 - 2 / ((span : ℚ) + 1))

/-- Modelled from the spec: the MACD main line, §4.1:
`macd[i] = fastEMA[i] - slowEMA[i]`, defined once both EMAs are seeded. -/
def macdQ (fast slow : ℕ) (xs : List ℚ) (i : ℕ) : Option ℚ :=
  match emaQ fast xs i, emaQ slow xs i with
  | some f, some s => some (f - s)
  | _, _ => none

/-- The defined values of the MACD main line, in index order; the signal line
is an EMA over this series. -/
def macdVals (fast slow : ℕ) (xs : List ℚ) : List ℚ :=
  (List.range xs.length).filterMap (macdQ fast slow xs)

/-- Modelled from the spec: the MACD signal line, §4.1: an EMA with span
`sig` of the `macd` series, seeded on top of `macd`'s own seed point (the
first defined `macd` index is `slow - 1`). -/
def signalQ (fast slow sig : ℕ) (xs : List ℚ) (i : ℕ) : Option ℚ :=
  if i + 1 < slow then none
  else emaQ sig (macdVals fast slow xs) (i + 1 - slow)

/-- Modelled from the spec: the MACD histogram, §4.1:
`histogram[i] = macd[i] - signal[i]` wherever both are defined. -/
def histQ (fast slow sig : ℕ) (xs : List ℚ) (i : ℕ) : Option ℚ :=
  match macdQ fast slow xs i, signalQ fast slow sig xs i with
  | some m, some s => some (m - s)
  | _, _ => none

/-- `MACDStrategy.get_historical_data` (source lines 24-52): with no candles
it returns `None` (line 32-33); otherwise it builds the dataframe, coerces the
numeric columns (a no-op on already-numeric data, lines 36-40) and attaches
the `ma200`, `macd`, `signal` and `hist` columns computed by the indicator
routines (lines 43-50).  No length validation, timestamp-monotonicity check or
finiteness check appears anywhere on this path, and no error is ever raised:
every nonempty input produces an enriched row sequence. -/
def get_historical_data (candles : List Candle) : Option (List IndicatorPoint) :=
  match candles with
  | [] => none
  | _ =>
    let closes := candles.map (fun c => c.close)
    some ((List.range candles.length).map fun i =>
      { timestamp := (candles.getD i ⟨0, 0, 0, 0, 0⟩).time
        close := closes.getD i 0
        ma200 := smaQ MACDStrategy.ma_period closes i
        macd := macdQ MACDStrategy.macd_fast MACDStrategy.macd_slow closes i
        signal := signalQ MACDStrategy.macd_fast MACDStrategy.macd_slow
          MACDStrategy.macd_signal closes i
        hist := histQ MACDStrategy.macd_fast MACDStrategy.macd_slow
          MACDStrategy.macd_signal closes i })

/-- The observable outcome of pressing Place Trade (source lines 178-189). -/
inductive TradeOutcome where
  /-- The `else` branch at line 188: "No valid trading signal at the moment". -/
  | warned
  /-- `strategy.execute_trade(signal)` ran to completion. -/
  | executed
  /-- Python raised `AttributeError` looking up `execute_trade`. -/
  | attributeError
deriving DecidableEq

/-- The Place-Trade handler (source lines 178-189): a non-NONE signal invokes
`strategy.execute_trade(signal)` (line 182); Python attribute lookup on the
instance falls back to the class body, which defines only the names in
`MACDStrategy.methods`, and a miss raises `AttributeError`.  A NONE signal
takes the warning branch and performs no call. -/
def place_trade (signal : Decision) : TradeOutcome :=
  if signal ≠ Decision.NONE then
    if MACDStrategy.methods.contains "execute_trade" then TradeOutcome.executed
    else TradeOutcome.attributeError
  else TradeOutcome.warned

/-- The specification's wording of a bullish crossover (§4.2 step 2):
`prev.macd <= prev.signal AND curr.macd > curr.signal`. -/
def spec_bullish_crossover (pm ps cm cs : ℚ) : Prop :=
  pm ≤ ps ∧ cs < cm

/-- The specification's wording of a bearish crossover (§4.2 step 2):
`prev.macd >= prev.signal AND curr.macd < curr.signal`. -/
def spec_bearish_crossover (pm ps cm cs : ℚ) : Prop :=
  ps ≤ pm ∧ cm < cs

theorem optGT_none_left (x : Option ℚ) : optGT none x = false := by
  cases x <;> rfl

theorem optGT_none_right (x : Option ℚ) : optGT x none = false := by
  cases x <;> rfl

theorem optLT_none_left (x : Option ℚ) : optLT none x = false := by
  cases x <;> rfl

theorem optLT_none_right (x : Option ℚ) : optLT x none = false := by
  cases x <;> rfl

theorem optLE_none_left (x : Option ℚ) : optLE none x = false := by
  cases x <;> rfl

theorem optLE_none_right (x : Option ℚ) : optLE x none = false := by
  cases x <;> rfl

theorem optGE_none_left (x : Option ℚ) : optGE none x = false := by
  cases x <;> rfl

theorem optGE_none_right (x : Option ℚ) : optGE x none = false := by
  cases x <;> rfl

/-- C1.  For consecutive indicator points whose oscillator values are all
defined, the code's crossover tests (source lines 167 and 169) coincide with
the specification's crossover predicates: bullish exactly when
`prev.macd ≤ prev.signal` and `curr.macd > curr.signal`, bearish exactly when
`prev.macd ≥ prev.signal` and `curr.macd < curr.signal`; in particular the
boundary case `prev.macd = prev.signal` with `curr.macd > curr.signal` counts
as bullish. -/
theorem crossover_detection_matches_spec (p c : IndicatorPoint)
    (pm ps cm cs : ℚ) (hpm : p.macd = some pm) (hps : p.signal = some ps)
    (hcm : c.macd = some cm) (hcs : c.signal = some cs) :
    (bullish_cross p c = true ↔ spec_bullish_crossover pm ps cm cs) ∧
    (bearish_cross p c = true ↔ spec_bearish_crossover pm ps cm cs) ∧
    (pm = ps → cs < cm → bullish_cross p c = true) := by
  simp only [bullish_cross, bearish_cross, spec_bullish_crossover,
    spec_bearish_crossover, hpm, hps, hcm, hcs, optGT, optLT, optLE, optGE,
    Bool.and_eq_true, decide_eq_true_eq]
  constructor
  · exact ⟨fun h => ⟨h.2, h.1⟩, fun h => ⟨h.2, h.1⟩⟩
  constructor
  · exact ⟨fun h => ⟨h.2, h.1⟩, fun h => ⟨h.2, h.1⟩⟩
  · exact fun heq hlt => ⟨hlt, le_of_eq heq⟩

/-- Witness for C1 at the boundary input `prev.macd = prev.signal = 1`,
`curr.macd = 2 > curr.signal = 1`. -/
theorem crossover_detection_matches_spec_witness :
    (bullish_cross ⟨0, 1, none, some 1, some 1, none⟩
        ⟨60, 1, none, some 2, some 1, none⟩ = true ↔
      spec_bullish_crossover 1 1 2 1) ∧
    (bearish_cross ⟨0, 1, none, some 1, some 1, none⟩
        ⟨60, 1, none, some 2, some 1, none⟩ = true ↔
      spec_bearish_crossover 1 1 2 1) ∧
    ((1 : ℚ) = 1 → (1 : ℚ) < 2 → bullish_cross ⟨0, 1, none, some 1, some 1, none⟩
        ⟨60, 1, none, some 2, some 1, none⟩ = true) :=
  crossover_detection_matches_spec ⟨0, 1, none, some 1, some 1, none⟩
    ⟨60, 1, none, some 2, some 1, none⟩ 1 1 2 1 rfl rfl rfl rfl

/-- C2.  With all oscillator values defined, the decision of source lines
166-171 is CALL (ENTER_LONG) exactly when a bullish crossover occurs with
`curr.macd < 0`, and PUT (ENTER_SHORT) exactly when a bearish crossover occurs
with `curr.macd > 0`; in particular a bullish crossover with
`curr.macd ≥ 0` never yields CALL. -/
theorem zero_line_filter (p c : IndicatorPoint)
    (pm ps cm cs : ℚ) (hpm : p.macd = some pm) (hps : p.signal = some ps)
    (hcm : c.macd = some cm) (hcs : c.signal = some cs) :
    (signal_decision p c = Decision.CALL ↔
      spec_bullish_crossover pm ps cm cs ∧ cm < 0) ∧
    (signal_decision p c = Decision.PUT ↔
      spec_bearish_crossover pm ps cm cs ∧ 0 < cm) := by
  simp only [signal_decision, bullish_cross, bearish_cross, hpm, hps, hcm, hcs,
    optGT, optLT, optLE, optGE, spec_bullish_crossover, spec_bearish_crossover,
    Bool.and_eq_true, decide_eq_true_eq]
  split_ifs with h1 h2 h3 h4 <;> simp_all <;> try tauto
  all_goals try constructor
  all_goals intro hx hy
  all_goals first
    | linarith [h1.1]
    | linarith [h3.1]
    | linarith [h1 hy]
    | linarith [h3 hy]

/-- Witness for C2 at a bullish crossover below the zero line
(`prev.macd = -2 ≤ prev.signal = -1`, `curr.macd = -1 > curr.signal = -2`,
`curr.macd < 0`). -/
theorem zero_line_filter_witness :
    (signal_decision ⟨0, 1, none, some (-2), some (-1), none⟩
        ⟨60, 1, none, some (-1), some (-2), none⟩ = Decision.CALL ↔
      spec_bullish_crossover (-2) (-1) (-1) (-2) ∧ (-1 : ℚ) < 0) ∧
    (signal_decision ⟨0, 1, none, some (-2), some (-1), none⟩
        ⟨60, 1, none, some (-1), some (-2), none⟩ = Decision.PUT ↔
      spec_bearish_crossover (-2) (-1) (-1) (-2) ∧ (0 : ℚ) < -1) :=
  zero_line_filter ⟨0, 1, none, some (-2), some (-1), none⟩
    ⟨60, 1, none, some (-1), some (-2), none⟩ (-2) (-1) (-1) (-2)
    rfl rfl rfl rfl

/-- C3 counterexample.  Both points have an undefined `ma200` (trendMA)
field, yet the oscillator values form a bullish crossover below zero and the
code answers CALL, not NONE: the signal computation of lines 166-171 never
reads the trend column, so an undefined trend field does not force NONE. -/
theorem undefined_trend_does_not_force_NONE :
    (⟨0, 1, none, some (-2), some (-1), none⟩ : IndicatorPoint).ma200 = none ∧
    (⟨60, 1, none, some (-1), some (-2), none⟩ : IndicatorPoint).ma200 = none ∧
    signal_decision ⟨0, 1, none, some (-2), some (-1), none⟩
      ⟨60, 1, none, some (-1), some (-2), none⟩ = Decision.CALL :=
  ⟨rfl, rfl, rfl⟩

/-- C3 as amended.  If either point has an undefined oscillator field
(`macd` or `signal`), the decision is NONE: every comparison against a NaN is
`False` in Python, so neither crossover branch can fire.  (An undefined
`ma200` alone does not force NONE — the decision never reads it.)  The
classifier is a total function, so it never fails on degenerate input. -/
theorem undefined_oscillator_yields_NONE (p c : IndicatorPoint)
    (h : p.macd = none ∨ p.signal = none ∨ c.macd = none ∨ c.signal = none) :
    signal_decision p c = Decision.NONE := by
  rcases h with h | h | h | h <;>
    simp [signal_decision, bullish_cross, bearish_cross, h,
      optGT_none_left, optGT_none_right, optLT_none_left, optLT_none_right,
      optLE_none_left, optLE_none_right, optGE_none_left, optGE_none_right]

/-- Witness for the amended C3: a point whose `macd` is still unseeded maps
to NONE even though every other field would form a crossover. -/
theorem undefined_oscillator_yields_NONE_witness :
    signal_decision ⟨0, 1, some 1, none, some (-1), none⟩
      ⟨60, 1, some 1, some (-1), some (-2), none⟩ = Decision.NONE :=
  undefined_oscillator_yields_NONE ⟨0, 1, some 1, none, some (-1), none⟩
    ⟨60, 1, some 1, some (-1), some (-2), none⟩ (Or.inl rfl)

/-- C4 counterexample.  A single candle is far fewer than
`macd_slow + macd_signal = 35`, yet `get_historical_data` returns a result
(`isSome`), not a typed `InsufficientData` error: the source performs no
length validation and defines no error type at all. -/
theorem short_input_returns_result :
    ([(⟨100, 1, 1, 1, 1⟩ : Candle)].length <
      MACDStrategy.macd_slow + MACDStrategy.macd_signal) ∧
    (get_historical_data [⟨100, 1, 1, 1, 1⟩]).isSome = true :=
  ⟨by decide, rfl⟩

/-- C4 as amended.  For every nonempty candle sequence shorter than
`macd_slow + macd_signal`, `get_historical_data` does not fail: it returns an
enriched row sequence of the same length, with each indicator field simply
undefined before that indicator's seed point. -/
theorem short_input_yields_full_length_sequence (candles : List Candle)
    (hshort : candles.length < MACDStrategy.macd_slow + MACDStrategy.macd_signal)
    (hne : candles ≠ []) :
    ∃ pts, get_historical_data candles = some pts ∧
      pts.length = candles.length := by
  match candles with
  | [] => exact absurd rfl hne
  | c :: cs => exact ⟨_, rfl, by simp [get_historical_data]⟩

/-- Witness for the amended C4 on a one-candle input. -/
theorem short_input_yields_full_length_sequence_witness :
    ∃ pts, get_historical_data [⟨100, 1, 1, 1, 1⟩] = some pts ∧
      pts.length = [(⟨100, 1, 1, 1, 1⟩ : Candle)].length :=
  short_input_yields_full_length_sequence [⟨100, 1, 1, 1, 1⟩] (by decide)
    (by decide)

/-- C5 counterexample.  A two-candle sequence whose timestamps decrease
(200 then 100) is not rejected: `get_historical_data` computes indicators
over it and returns a result, with no typed `MalformedCandle` error — the
source converts the `time` column and coerces the price columns but never
checks monotonicity or finiteness. -/
theorem non_monotonic_input_returns_result :
    ¬ List.Chain' (· < ·)
      (([⟨200, 2, 2, 2, 2⟩, ⟨100, 1, 1, 1, 1⟩] : List Candle).map Candle.time) ∧
    (get_historical_data [⟨200, 2, 2, 2, 2⟩, ⟨100, 1, 1, 1, 1⟩]).isSome = true :=
  ⟨by simp [List.chain'_cons], rfl⟩

/-- C5 as amended.  `get_historical_data` performs no input validation: every
nonempty candle sequence — in particular one whose timestamps are not
strictly increasing — is accepted and enriched with indicator columns rather
than rejected with a typed error.  (Non-finite float inputs are likewise
passed to the indicator routines uninspected; they lie outside this rational
embedding.) -/
theorem no_malformed_candle_rejection (candles : List Candle)
    (hmono : ¬ List.Chain' (· < ·) (candles.map Candle.time))
    (hne : candles ≠ []) :
    (get_historical_data candles).isSome = true := by
  match candles with
  | [] => exact absurd rfl hne
  | c :: cs => rfl

/-- Witness for the amended C5 on a concrete non-monotonic sequence. -/
theorem no_malformed_candle_rejection_witness :
    (get_historical_data [⟨300, 3, 3, 3, 3⟩, ⟨150, 1, 1, 1, 1⟩]).isSome = true :=
  no_malformed_candle_rejection [⟨300, 3, 3, 3, 3⟩, ⟨150, 1, 1, 1, 1⟩]
    (by simp [List.chain'_cons]) (by simp)

/-- C6 counterexample.  At index 0 of a one-element close series the 200-bar
moving average is still undefined, yet the trend display of source line 161
reports DOWNTREND — not "neither UPTREND nor DOWNTREND": the NaN comparison
is `False`, so the `else` branch fires.  The code has no undefined trend
state. -/
theorem undefined_trend_ma_displays_DOWNTREND :
    smaQ MACDStrategy.ma_period [1] 0 = none ∧
    trend_of 1 (smaQ MACDStrategy.ma_period [1] 0) = Trend.DOWNTREND :=
  ⟨rfl, rfl⟩

/-- C6 as amended.  The trend is UPTREND exactly when `close > trendMA` and
DOWNTREND exactly when `close ≤ trendMA`; wherever `trendMA` is undefined
(every index `i < ma_period - 1`, as the moving average is unseeded there)
the code reports DOWNTREND rather than leaving the trend undefined. -/
theorem trend_classification (close m : ℚ) (closes : List ℚ) (i : ℕ)
    (hi : i + 1 < MACDStrategy.ma_period) :
    (trend_of close (some m) = Trend.UPTREND ↔ m < close) ∧
    (trend_of close (some m) = Trend.DOWNTREND ↔ close ≤ m) ∧
    trend_of close none = Trend.DOWNTREND ∧
    smaQ MACDStrategy.ma_period closes i = none := by
  refine ⟨?_, ?_, rfl, if_pos (Or.inr (Or.inr hi))⟩
  · simp only [trend_of, optGT]
    split_ifs with h <;> simp_all
  · simp only [trend_of, optGT]
    split_ifs with h <;> simp_all

/-- Witness for the amended C6 at `close = 1`, `trendMA = 2`, index 0. -/
theorem trend_classification_witness :
    ((trend_of 1 (some 2) = Trend.UPTREND ↔ (2 : ℚ) < 1) ∧
      (trend_of 1 (some 2) = Trend.DOWNTREND ↔ (1 : ℚ) ≤ 2) ∧
      trend_of 1 none = Trend.DOWNTREND ∧
      smaQ MACDStrategy.ma_period [] 0 = none) :=
  trend_classification 1 2 [] 0 (by decide)

theorem emaQ_isSome_iff (span : ℕ) (xs : List ℚ) (i : ℕ) :
    (emaQ span xs i).isSome = true ↔
      1 ≤ span ∧ span ≤ i + 1 ∧ i < xs.length := by
  induction i with
  | zero =>
      simp only [emaQ]
      split_ifs with h
      · obtain ⟨ha, hb⟩ := h
        exact iff_of_true rfl ⟨by omega, by omega, by omega⟩
      · refine iff_of_false (by simp) ?_
        rintro ⟨ha, hb, hc⟩
        exact h ⟨by omega, by omega⟩
  | succ j ih =>
      simp only [emaQ]
      split_ifs with h1 h2 h3 <;> simp [ih] <;> omega

theorem emaQ_seed (span : ℕ) (xs : List ℚ) (h1 : 1 ≤ span)
    (h2 : span ≤ xs.length) :
    emaQ span xs (span - 1) = some ((xs.take span).sum / (span : ℚ)) := by
  match span, h1 with
  | 1, _ =>
      simp only [emaQ]
      simp [h2]
  | n + 2, _ =>
      show emaQ (n + 2) xs (n + 1) = _
      simp only [emaQ]
      rw [if_neg (by omega), if_neg (by omega)]
      simp

theorem emaQ_step (span : ℕ) (xs : List ℚ) (i : ℕ) (h1 : 1 ≤ span)
    (h2 : span ≤ i) (h3 : i < xs.length) :
    ∃ p, emaQ span xs (i - 1) = some p ∧
      emaQ span xs i = some (xs.getD i 0 * (2 / ((span : ℚ) + 1)) +
        p * (1 - 2 / ((span : ℚ) + 1))) := by
  obtain ⟨j, rfl⟩ : ∃ j, i = j + 1 := ⟨i - 1, by omega⟩
  have hdef : (emaQ span xs j).isSome = true := by
    rw [emaQ_isSome_iff]
    exact ⟨h1, by omega, by omega⟩
  obtain ⟨p, hp⟩ := Option.isSome_iff_exists.mp hdef
  refine ⟨p, by simpa using hp, ?_⟩
  simp only [emaQ]
  rw [if_neg (by omega), if_neg (by omega), if_neg (by omega), hp]
  rfl

/-- C7.  The modelled oscillator obeys the specification's smoothing laws:
the EMA seed `ema[span-1]` is the simple mean of the first `span` inputs; for
every later in-range index, `ema[i] = input[i]*k + ema[i-1]*(1-k)` with
`k = 2/(span+1)`; `macd[i] = fastEMA[i] - slowEMA[i]` whenever both EMAs are
defined; and `histogram[i] = macd[i] - signal[i]` wherever both are
defined. -/
theorem ema_macd_histogram_laws :
    (∀ (span : ℕ) (xs : List ℚ), 1 ≤ span → span ≤ xs.length →
        emaQ span xs (span - 1) = some ((xs.take span).sum / (span : ℚ))) ∧
    (∀ (span : ℕ) (xs : List ℚ) (i : ℕ), 1 ≤ span → span ≤ i →
        i < xs.length →
        ∃ p, emaQ span xs (i - 1) = some p ∧
          emaQ span xs i = some (xs.getD i 0 * (2 / ((span : ℚ) + 1)) +
            p * (1 - 2 / ((span : ℚ) + 1)))) ∧
    (∀ (fast slow : ℕ) (xs : List ℚ) (i : ℕ) (f s : ℚ),
        emaQ fast xs i = some f → emaQ slow xs i = some s →
        macdQ fast slow xs i = some (f - s)) ∧
    (∀ (fast slow sig : ℕ) (xs : List ℚ) (i : ℕ) (m s : ℚ),
        macdQ fast slow xs i = some m → signalQ fast slow sig xs i = some s →
        histQ fast slow sig xs i = some (m - s)) := by
  refine ⟨emaQ_seed, emaQ_step, ?_, ?_⟩
  · intro fast slow xs i f s hf hs
    simp [macdQ, hf, hs]
  · intro fast slow sig xs i m s hm hs
    simp [histQ, hm, hs]

/-- Witness for C7: the seed and recurrence at `span = 2` on `[1, 3, 5]`, and
the MACD and histogram identities at `fast = 1`, `slow = 2`, `sig = 1`,
index 2 (`fastEMA = 5`, `slowEMA = 4`, `macd = 1`, `signal = 1`). -/
theorem ema_macd_histogram_laws_witness :
    emaQ 2 [1, 3, 5] (2 - 1) = some (([1, 3, 5].take 2).sum / (2 : ℚ)) ∧
    (∃ p, emaQ 2 [1, 3, 5] (2 - 1) = some p ∧
      emaQ 2 [1, 3, 5] 2 = some ([1, 3, 5].getD 2 0 * (2 / ((2 : ℚ) + 1)) +
        p * (1 - 2 / ((2 : ℚ) + 1)))) ∧
    macdQ 1 2 [1, 3, 5] 2 = some (5 - 4) ∧
    histQ 1 2 1 [1, 3, 5] 2 = some (1 - 1) :=
  ⟨ema_macd_histogram_laws.1 2 [1, 3, 5] (by decide) (by decide),
   ema_macd_histogram_laws.2.1 2 [1, 3, 5] 2 (by decide) (by decide)
     (by decide),
   ema_macd_histogram_laws.2.2.1 1 2 [1, 3, 5] 2 5 4 (by norm_num [emaQ])
     (by norm_num [emaQ]),
   ema_macd_histogram_laws.2.2.2 1 2 1 [1, 3, 5] 2 1 1
     (by norm_num [macdQ, emaQ])
     (by norm_num [signalQ, macdVals, macdQ, emaQ, List.range_succ,
       List.filterMap_cons])⟩

/-- C8.  Noninterference of the trend on the decision: two runs of the
signal computation on points agreeing in the four oscillator values
(`prev.macd`, `prev.signal`, `curr.macd`, `curr.signal`) but arbitrary in
`close`, `ma200` (trendMA), `hist` and `timestamp` return the same Decision —
lines 166-171 never read those fields. -/
theorem decision_ignores_trend_and_close (p c p2 c2 : IndicatorPoint)
    (hpm : p.macd = p2.macd) (hps : p.signal = p2.signal)
    (hcm : c.macd = c2.macd) (hcs : c.signal = c2.signal) :
    signal_decision p c = signal_decision p2 c2 := by
  simp [signal_decision, bullish_cross, bearish_cross, hpm, hps, hcm, hcs]

/-- Witness for C8: the same oscillator values with completely different
close, trendMA and histogram fields give the same decision. -/
theorem decision_ignores_trend_and_close_witness :
    signal_decision ⟨0, 1, some 9, some (-2), some (-1), some 7⟩
        ⟨60, 1, some 9, some (-1), some (-2), some 7⟩ =
      signal_decision ⟨5, 100, none, some (-2), some (-1), none⟩
        ⟨65, 100, none, some (-1), some (-2), none⟩ :=
  decision_ignores_trend_and_close
    ⟨0, 1, some 9, some (-2), some (-1), some 7⟩
    ⟨60, 1, some 9, some (-1), some (-2), some 7⟩
    ⟨5, 100, none, some (-2), some (-1), none⟩
    ⟨65, 100, none, some (-1), some (-2), none⟩ rfl rfl rfl rfl

/-- C9.  The bullish and bearish crossover tests can never fire together
(`curr.macd > curr.signal` and `curr.macd < curr.signal` exclude each other,
also through the NaN cases), and the signal computation deterministically
returns one of CALL, PUT or NONE on every input. -/
theorem crossover_mutual_exclusion_and_totality (p c : IndicatorPoint) :
    (bullish_cross p c && bearish_cross p c) = false ∧
    (signal_decision p c = Decision.CALL ∨ signal_decision p c = Decision.PUT ∨
      signal_decision p c = Decision.NONE) := by
  constructor
  · cases hcm : c.macd with
    | none => simp [bullish_cross, optGT, hcm]
    | some a =>
      cases hcs : c.signal with
      | none => simp [bullish_cross, optGT, hcm, hcs]
      | some b =>
        by_cases hab : b < a
        · have hna : ¬ a < b := lt_asymm hab
          simp [bullish_cross, bearish_cross, optGT, optLT, hcm, hcs, hab, hna]
        · simp [bullish_cross, optGT, hcm, hcs, hab]
  · cases h : signal_decision p c
    · exact Or.inl rfl
    · exact Or.inr (Or.inl rfl)
    · exact Or.inr (Or.inr rfl)

/-- C10.  The `MACDStrategy` class body defines no `execute_trade` method, so
for every non-NONE decision the Place-Trade handler's call
`strategy.execute_trade(signal)` raises `AttributeError`: the execution path
can never succeed. -/
theorem execute_trade_always_raises (s : Decision) (h : s ≠ Decision.NONE) :
    MACDStrategy.methods.contains "execute_trade" = false ∧
    place_trade s = TradeOutcome.attributeError := by
  refine ⟨by decide, ?_⟩
  simp only [place_trade]
  rw [if_pos h, if_neg (by decide)]

/-- Witness for C10 at the CALL decision. -/
theorem execute_trade_always_raises_witness :
    MACDStrategy.methods.contains "execute_trade" = false ∧
    place_trade Decision.CALL = TradeOutcome.attributeError :=
  execute_trade_always_raises Decision.CALL (by decide)
